import Mathlib

/-!
Shallow embedding of pandera's pandas array backend
(`pandera/backends/pandas/array.py`): the per-column validation pipeline
(`ArraySchemaBackend.validate`), its coercion step, the four structural
checks (name, nullable, unique, dtype), the declared-check runner, and the
`SeriesSchemaBackend.coerce_dtype` override that re-attaches the schema
association.

Conventions of the embedding:
* a pandas `Series` is a list of (index label, value) pairs together with a
  name, a runtime dtype name, and the state of the `pandera` accessor;
* values are `null` (NaN/None), integers or strings — enough to express
  nullability, uniqueness, dtype and coercion behaviour;
* exceptions become `Except`: `SchemaError` raised by a step is the
  `.error` branch, and `validate` as a whole returns
  `Except ValidateFailure Series` (an eagerly raised `SchemaError`, or the
  lazy-mode `SchemaErrors` aggregate);
* Python string formatting of pandas objects inside human-readable
  messages is rendered by a small deterministic `renderPairs` stand-in
  (no claim depends on message text);
* collaborators of `array.py` that are not part of the sources here
  (`SchemaErrorHandler`, `Dtype.try_coerce`, `subsample`, `run_check`,
  `reshape_failure_cases`, `scalar_failure_case`, `convert_uniquesettings`,
  the `SchemaError` class) are modelled from the spec; each such
  definition says so in its doc comment.
-/

/-- A cell of a pandas Series: null (NaN/None), an integer, or a string. -/
inductive Val where
  | null : Val
  | int : Int → Val
  | str : String → Val
deriving DecidableEq, Repr

/-- One failure case: the row index it occurred at (`none` for a synthetic
scalar failure case) and the offending value. -/
structure FailureCase where
  index : Option Nat
  value : Val
deriving DecidableEq, Repr

/-- A pandas Series. `toList` is the sequence of (index label, value) rows.
`hasPandera` models whether the `pandera` accessor is available on the
object (`hasattr(check_obj, "pandera")`), and `schemaAssoc` the schema
identity attached through that accessor by a prior `add_schema` call
(`None` when no association is attached). -/
structure Series where
  name : Option String
  dtypeName : String
  toList : List (Nat × Val)
  hasPandera : Bool
  schemaAssoc : Option Nat
deriving DecidableEq, Repr

/-- The values of the series, in row order. -/
def Series.values (s : Series) : List Val :=
  s.toList.map Prod.snd

/-- Boolean-mask selection `check_obj[mask]`: the rows whose mask entry is
true, positionally aligned (pandas aligns the mask by index; the embedded
mask is produced from the same series, so positional zip agrees). -/
def seriesSelect (s : Series) (mask : List Bool) : List (Nat × Val) :=
  (s.toList.zip mask).filterMap (fun pb => if pb.2 then some pb.1 else none)

/-- Modelled from the spec: `reshape_failure_cases` of
`pandera/backends/pandas/error_formatters.py` (not among the sources)
turns the offending rows into the failure-case table of (index, value)
pairs; with `ignore_na` set, null-valued rows are dropped. -/
def reshape_failure_cases (failed : List (Nat × Val)) (ignore_na : Bool) :
    List FailureCase :=
  failed.filterMap (fun iv =>
    if ignore_na && iv.2 == Val.null then none
    else some ⟨some iv.1, iv.2⟩)

/-- Modelled from the spec: `scalar_failure_case` of
`error_formatters.py` (not among the sources) wraps one scalar into a
one-row failure-case table with no row index. -/
def scalar_failure_case (v : Val) : List FailureCase :=
  [⟨none, v⟩]

/-- A series name as a scalar value (for `scalar_failure_case(check_obj.name)`;
a missing name is Python `None`, i.e. a null scalar). -/
def nameVal : Option String → Val
  | none => Val.null
  | some s => Val.str s

/-- Deterministic stand-in for Python repr of a value inside a message. -/
def renderVal : Val → String
  | Val.null => "NaN"
  | Val.int n => toString n
  | Val.str s => s

/-- Deterministic stand-in for Python repr of the offending rows inside a
human-readable message. -/
def renderPairs (l : List (Nat × Val)) : String :=
  String.intercalate ", "
    (l.map (fun iv => toString iv.1 ++ ": " ++ renderVal iv.2))

/-- Result of `schema.dtype.check(engine_dtype, data)`: either one boolean
for the whole column, or a per-element boolean mask (spec 4.1: both shapes
must be uniformly supported by callers). -/
inductive DtypeCheckOut where
  | scalar : Bool → DtypeCheckOut
  | mask : List Bool → DtypeCheckOut

/-- Whether a dtype check outcome means the column matches. -/
def DtypeCheckOut.allPass : DtypeCheckOut → Bool
  | DtypeCheckOut.scalar b => b
  | DtypeCheckOut.mask m => m.all id

/-- Modelled from the spec: a parse error raised by the Type Engine's
`try_coerce` (not among the sources), carrying the failure-case collection
(index and offending raw value) of the elements that failed to coerce. -/
structure ParserError where
  failure_cases : List FailureCase
deriving DecidableEq, Repr

/-- A logical dtype descriptor (the Type Engine side, spec 4.1, not among
the sources). `dname` is its display name; `coerceVal` is per-element
coercion (`none` = that element cannot be coerced); `checkFn` is the
compatibility check, given the runtime dtype name (the engine-resolved
`Engine.dtype(check_obj.dtype)`) and the column's values. -/
structure Dtype where
  dname : String
  coerceVal : Val → Option Val
  checkFn : String → List Val → DtypeCheckOut

/-- Modelled from the spec (4.1): `try_coerce` attempts coercion of every
element; on success it returns the coerced column (a fresh object: any
accessor-attached schema association is not carried over), on failure it
raises a `ParserError` carrying one failure case per uncoercible element
(index and offending raw value) without mutating the input. -/
def Dtype.try_coerce (dt : Dtype) (s : Series) : Except ParserError Series :=
  let failures : List FailureCase :=
    s.toList.filterMap (fun iv =>
      match dt.coerceVal iv.2 with
      | some _ => none
      | none => some ⟨some iv.1, iv.2⟩)
  if failures.isEmpty then
    Except.ok
      { name := s.name
        dtypeName := dt.dname
        toList := s.toList.map (fun iv => (iv.1, (dt.coerceVal iv.2).getD iv.2))
        hasPandera := s.hasPandera
        schemaAssoc := none }
  else
    Except.error ⟨failures⟩

/-- Outcome of running one declared check's implementation on the data:
it passes, reports a structured failure (which `run_check` raises as a
`SchemaError`), raises an arbitrary non-framework exception, or raises a
`DispatchError` of the runtime dispatch layer whose `__cause__` is the
underlying exception (class name and constructor args). -/
inductive CheckOutcome where
  | passed : CheckOutcome
  | failed : List FailureCase → CheckOutcome
  | errored : String → List String → CheckOutcome
  | dispatchErrored : String → List String → CheckOutcome

/-- A declared check: a display name and its implementation's behaviour on
the (subsampled) data it is run on. -/
structure Check where
  cname : String
  outcome : Series → CheckOutcome

/-- The schema-level duplicate-report setting. -/
inductive ReportDuplicates where
  | exclude_first : ReportDuplicates
  | exclude_last : ReportDuplicates
  | all : ReportDuplicates
deriving DecidableEq, Repr

/-- The schema a column/series is validated against: name, optional dtype
descriptor, nullable and unique flags, duplicate-report setting, coerce
flag, and the declared checks in declaration order. `sid` is the schema's
identity, used where Python stores the schema object itself inside an
error. -/
structure Schema where
  sid : Nat
  name : Option String
  dtype : Option Dtype
  nullable : Bool
  unique : Bool
  report_duplicates : ReportDuplicates
  coerce : Bool
  checks : List Check

/-- Modelled from the spec (data model): the `SchemaError` record of
`pandera/errors.py` (not among the sources): schema reference, offending
data snapshot, message, failure cases, the check identifier, the declared
check's position, and the reason code classifying the violation. Where
Python stores the schema / check objects themselves, this embedding stores
the schema's identity and the check's display string. Call sites of the
constructor in `array.py` that do not pass a reason code get the spec
taxonomy's code for that failure kind (spec 7). -/
structure SchemaError where
  schemaRef : Nat
  data : Option Series
  message : Option String
  failure_cases : Option (List FailureCase) := none
  check : Option String := none
  check_index : Option Nat := none
  reason_code : Option String := none
deriving DecidableEq, Repr

/-- `CoreCheckResult`, `array.py` lines 21-28: uniform result record of the
four structural checks. -/
structure CoreCheckResult where
  check : String
  reason_code : String
  passed : Bool
  message : Option String := none
  failure_cases : Option (List FailureCase) := none
deriving DecidableEq, Repr

/-- The lazy-mode aggregate `SchemaErrors(schema=…, schema_errors=…,
data=…)` raised at the end of `validate` (`array.py` lines 103-108). -/
structure SchemaErrorsAgg where
  schemaRef : Nat
  schema_errors : List SchemaError
  data : Series
deriving DecidableEq, Repr

/-- How a `validate` call fails: in eager mode the first collected
`SchemaError` propagates out; in lazy mode the `SchemaErrors` aggregate is
raised after all checks ran. -/
inductive ValidateFailure where
  | eager : SchemaError → ValidateFailure
  | aggregate : SchemaErrorsAgg → ValidateFailure
deriving DecidableEq, Repr

/-- Modelled from the spec (4.3): `SchemaErrorHandler.collect_error` of
`pandera/error_handlers.py` (not among the sources). In eager mode the
collected error is raised immediately, terminating the call; in lazy mode
it is appended, in check-execution order, to the internal list and nothing
is raised. -/
def collectError (lazy : Bool) (acc : List SchemaError) (e : SchemaError) :
    Except SchemaError (List SchemaError) :=
  if lazy then Except.ok (acc ++ [e]) else Except.error e

/-- The pandas `keep` argument of `Series.duplicated`: `first`, `last`, or
`False` (report every occurrence), written `flagAll` here. -/
inductive Keep where
  | first : Keep
  | last : Keep
  | flagAll : Keep
deriving DecidableEq, Repr

/-- Modelled from the spec (4.2 unique): `convert_uniquesettings` of
`pandera/backends/pandas/utils.py` (not among the sources) converts the
schema's duplicate-report setting to the pandas `keep` policy: the
occurrence excluded from the report is the canonical one, and `all` keeps
none (pandas `keep=False`). -/
def convert_uniquesettings : ReportDuplicates → Keep
  | ReportDuplicates.exclude_first => Keep.first
  | ReportDuplicates.exclude_last => Keep.last
  | ReportDuplicates.all => Keep.flagAll

/-- pandas `Series.duplicated(keep=…)` over the values of the series:
`first` flags every occurrence after the first of an equal value, `last`
every occurrence before the last, `flagAll` every occurrence of a value
that occurs more than once. -/
def duplicated (vals : List Val) (keep : Keep) : List Bool :=
  (List.range vals.length).map (fun i =>
    match keep with
    | Keep.first => (vals.take i).contains (vals.getD i Val.null)
    | Keep.last => (vals.drop (i + 1)).contains (vals.getD i Val.null)
    | Keep.flagAll =>
        (vals.count (vals.getD i Val.null)) ≥ 2)

/-- `ArraySchemaBackend.preprocess`, `array.py` lines 34-35: return the
object itself when `inplace`, else a copy. At the level of series values a
copy is equal to the original; object identity is handled by the store
model below (`preprocessOnHeap`). -/
def preprocess (check_obj : Series) (inplace : Bool) : Series :=
  if inplace then check_obj else check_obj

/-- Modelled from the spec (4.4 step 3): `subsample` of
`pandera/backends/pandas/base.py` (not among the sources): deterministic
head/tail-N row selection, or a seeded random sample of N rows — the
pseudo-random selection is abstracted as a deterministic function of the
data, N and the seed (rotate by the seed, then take N). Applied with the
same arguments to the field view and the whole-object view, so every check
observes the same rows. -/
def subsample (s : Series) (head tail sample random_state : Option Nat) :
    Series :=
  match head with
  | some n => { s with toList := s.toList.take n }
  | none =>
    match tail with
    | some n => { s with toList := s.toList.drop (s.toList.length - n) }
    | none =>
      match sample with
      | some n =>
        let k := (random_state.getD 0) % (s.toList.length + 1)
        { s with toList := (s.toList.drop k ++ s.toList.take k).take n }
      | none => s

/-- Python repr of an optional name inside a message. -/
def renderOptName : Option String → String
  | none => "None"
  | some s => s

/-- `ArraySchemaBackend.check_name`, `array.py` lines 143-153: passes iff
the schema declares no name or the data's name equals it; the failure case
is the scalar actual name. -/
def check_name (check_obj : Series) (schema : Schema) : CoreCheckResult :=
  { check := "field_name('" ++ renderOptName schema.name ++ "')"
    reason_code := "wrong_field_name"
    passed := schema.name.isNone || check_obj.name == schema.name
    message := some
      ("Expected series to have name '" ++ renderOptName schema.name
        ++ "', found '" ++ renderOptName check_obj.name ++ "'")
    failure_cases := some (scalar_failure_case (nameVal check_obj.name)) }

/-- `ArraySchemaBackend.check_nullable`, `array.py` lines 155-169: passes
iff the schema is nullable or no nulls are present; the failure cases are
every null-valued row (`ignore_na=False`). -/
def check_nullable (check_obj : Series) (schema : Schema) : CoreCheckResult :=
  let isna := check_obj.values.map (fun v => v == Val.null)
  { check := "not_nullable"
    reason_code := "series_contains_nulls"
    passed := schema.nullable || !(isna.any id)
    message := some
      ("non-nullable series '" ++ renderOptName check_obj.name
        ++ "' contains null values:\n"
        ++ renderPairs (seriesSelect check_obj isna))
    failure_cases := some
      (reshape_failure_cases (seriesSelect check_obj isna) false) }

/-- `ArraySchemaBackend.check_unique`, `array.py` lines 171-207 (the plain
pandas branch; the `pyspark.pandas` branch computes the same mask through
a frame round-trip): passes unless uniqueness is declared and
`check_obj.duplicated(keep=…)` flags some row; the failure cases are every
flagged row. -/
def check_unique (check_obj : Series) (schema : Schema) : CoreCheckResult :=
  if schema.unique then
    let keep_argument := convert_uniquesettings schema.report_duplicates
    let dups := duplicated check_obj.values keep_argument
    let failed := seriesSelect check_obj dups
    if dups.any id then
      { check := "field_uniqueness"
        reason_code := "series_contains_duplicates"
        passed := false
        message := some
          ("series '" ++ renderOptName check_obj.name
            ++ "' contains duplicate values:\n" ++ renderPairs failed)
        failure_cases := some (reshape_failure_cases failed true) }
    else
      { check := "field_uniqueness"
        reason_code := "series_contains_duplicates"
        passed := true
        message := none
        failure_cases := none }
  else
    { check := "field_uniqueness"
      reason_code := "series_contains_duplicates"
      passed := true
      message := none
      failure_cases := none }

/-- `ArraySchemaBackend.check_dtype`, `array.py` lines 209-243: with no
declared dtype the check passes with no failure cases; otherwise
`schema.dtype.check` returns one boolean (failure case: the scalar actual
dtype) or a per-element mask (failure cases: every non-conforming row,
`ignore_na=False`); the reason code is always `wrong_dtype`. -/
def check_dtype (check_obj : Series) (schema : Schema) : CoreCheckResult :=
  match schema.dtype with
  | none =>
    { check := "dtype('None')"
      reason_code := "wrong_dtype"
      passed := true
      message := none
      failure_cases := none }
  | some dt =>
    match dt.checkFn check_obj.dtypeName check_obj.values with
    | DtypeCheckOut.scalar b =>
      { check := "dtype('" ++ dt.dname ++ "')"
        reason_code := "wrong_dtype"
        passed := b
        message := some
          ("expected series '" ++ renderOptName check_obj.name
            ++ "' to have type " ++ dt.dname ++ ", got " ++ check_obj.dtypeName)
        failure_cases := some (scalar_failure_case (Val.str check_obj.dtypeName)) }
    | DtypeCheckOut.mask m =>
      { check := "dtype('" ++ dt.dname ++ "')"
        reason_code := "wrong_dtype"
        passed := m.all id
        message := some
          ("expected series '" ++ renderOptName check_obj.name
            ++ "' to have type " ++ dt.dname ++ ": failure cases among rows")
        failure_cases := some
          (reshape_failure_cases (seriesSelect check_obj (m.map not)) false) }

/-- `ArraySchemaBackend.coerce_dtype`, `array.py` lines 111-141: a no-op
when no dtype is declared or the schema does not coerce; otherwise
`schema.dtype.try_coerce`, converting a `ParserError` into a `SchemaError`
carrying the parse failure cases. The constructor call at lines 132-141
passes no reason code; per the spec taxonomy (spec 4.4 step 2 and 7,
errors module not among the sources) a coercion failure carries reason
code `coerce_dtype`. -/
def ArraySchemaBackend.coerce_dtype (check_obj : Series) (schema : Schema) :
    Except SchemaError Series :=
  match schema.dtype, schema.coerce with
  | none, _ => Except.ok check_obj
  | some _, false => Except.ok check_obj
  | some dt, true =>
    match dt.try_coerce check_obj with
    | Except.ok coerced => Except.ok coerced
    | Except.error exc =>
      Except.error
        { schemaRef := schema.sid
          data := some check_obj
          message := some
            ("Error while coercing '" ++ renderOptName schema.name
              ++ "' to type " ++ dt.dname ++ ": parser error:\n"
              ++ renderPairs (exc.failure_cases.map
                  (fun fc => (fc.index.getD 0, fc.value))))
          failure_cases := some exc.failure_cases
          check := some ("coerce_dtype('" ++ dt.dname ++ "')")
          reason_code := some "coerce_dtype" }

/-- What a `run_check` call can raise: a `SchemaError` (structured check
failure), an arbitrary exception (class name, constructor args), or a
multimethod `DispatchError` whose cause is the underlying exception. -/
inductive RunCheckExc where
  | schemaErr : SchemaError → RunCheckExc
  | exc : String → List String → RunCheckExc
  | dispatch : String → List String → RunCheckExc

/-- Modelled from the spec: `PandasSchemaBackend.run_check` of
`pandera/backends/pandas/base.py` (not among the sources) executes one
declared check on the (subsampled) data and returns `True` when it passes;
a structured failure is raised as a `SchemaError` with reason code
`dataframe_check` (spec 7) carrying the check's failure cases; any other
exception of the check's implementation propagates. -/
def run_check (check_obj : Series) (schema : Schema) (chk : Check)
    (check_index : Nat) : Except RunCheckExc Bool :=
  match chk.outcome check_obj with
  | CheckOutcome.passed => Except.ok true
  | CheckOutcome.failed fcs =>
    Except.error (RunCheckExc.schemaErr
      { schemaRef := schema.sid
        data := some check_obj
        message := some
          ("series '" ++ renderOptName check_obj.name
            ++ "' failed validator " ++ chk.cname)
        failure_cases := some fcs
        check := some chk.cname
        check_index := some check_index
        reason_code := some "dataframe_check" })
  | CheckOutcome.errored cls args => Except.error (RunCheckExc.exc cls args)
  | CheckOutcome.dispatchErrored cls args =>
    Except.error (RunCheckExc.dispatch cls args)

/-- The `err_msg` / `err_str` rendering of `array.py` lines 268-269:
the first exception argument in double quotes when there is one, wrapped
in the exception's class name. -/
def errStr (cls : String) (args : List String) : String :=
  let err_msg := match args with
    | [] => ""
    | a :: _ => "\"" ++ a ++ "\""
  cls ++ "(" ++ err_msg ++ ")"

/-- The `SchemaError` built at `array.py` lines 272-282 for a declared
check whose implementation raised `err` (after DispatchError unwrapping):
message and scalar failure case from `errStr`; the constructor call passes
no reason code, and the error is collected under `check_error`, the spec
taxonomy's code for it (spec 7). The `traceback.format_exc()` tail of the
message is abstracted to a fixed marker. -/
def checkErrorError (schema : Schema) (check_obj : Series) (chk : Check)
    (check_index : Nat) (cls : String) (args : List String) : SchemaError :=
  { schemaRef := schema.sid
    data := some check_obj
    message := some
      ("Error while executing check function: " ++ errStr cls args
        ++ "\n<traceback>")
    failure_cases := some (scalar_failure_case (Val.str (errStr cls args)))
    check := some chk.cname
    check_index := some check_index
    reason_code := some "check_error" }

/-- `ArraySchemaBackend.run_checks`, `array.py` lines 246-285, with the
`for check_index, check in enumerate(schema.checks)` loop written as
structural recursion over the remaining checks (`idx` is the position of
the first of them). `check_args` is `[None]` because the embedded
`check_obj` is a field (`is_field` holds). A `SchemaError` raised by
`run_check` is collected under `dataframe_check`; any other exception is
unwrapped from a `DispatchError` to its `__cause__` if need be and
collected under `check_error`; in eager mode `collect_error` raises, which
is the `Except.error` branch. Returns the `check_results` list and the
collected errors. -/
def run_checksAux (check_obj : Series) (schema : Schema) (lazy : Bool)
    (idx : Nat) (checks : List Check) (results : List Bool)
    (acc : List SchemaError) :
    Except SchemaError (List Bool × List SchemaError) :=
  match checks with
  | [] => Except.ok (results, acc)
  | chk :: rest =>
    match run_check check_obj schema chk idx with
    | Except.ok r =>
      run_checksAux check_obj schema lazy (idx + 1) rest (results ++ [r]) acc
    | Except.error (RunCheckExc.schemaErr err) =>
      match collectError lazy acc err with
      | Except.ok acc2 =>
        run_checksAux check_obj schema lazy (idx + 1) rest results acc2
      | Except.error e => Except.error e
    | Except.error (RunCheckExc.exc cls args) =>
      match collectError lazy acc (checkErrorError schema check_obj chk idx cls args) with
      | Except.ok acc2 =>
        run_checksAux check_obj schema lazy (idx + 1) rest results acc2
      | Except.error e => Except.error e
    | Except.error (RunCheckExc.dispatch cls args) =>
      match collectError lazy acc (checkErrorError schema check_obj chk idx cls args) with
      | Except.ok acc2 =>
        run_checksAux check_obj schema lazy (idx + 1) rest results acc2
      | Except.error e => Except.error e

/-- `ArraySchemaBackend.run_checks` entry point (loop starts at index 0
with empty `check_results`). -/
def run_checks (check_obj : Series) (schema : Schema) (lazy : Bool)
    (acc : List SchemaError) :
    Except SchemaError (List Bool × List SchemaError) :=
  run_checksAux check_obj schema lazy 0 schema.checks [] acc

/-- The `SchemaError` built inside the core-check loop of `validate`
(`array.py` lines 88-95) from a failed `CoreCheckResult`. -/
def SchemaError.ofCoreCheckResult (schema : Schema) (data : Series)
    (r : CoreCheckResult) : SchemaError :=
  { schemaRef := schema.sid
    data := some data
    message := r.message
    failure_cases := r.failure_cases
    check := some r.check
    reason_code := some r.reason_code }

/-- One turn of the core-check loop, `array.py` lines 84-96: feed the
check's result to the error handler when it did not pass (collecting under
the result's reason code). -/
def collectCore (lazy : Bool) (schema : Schema) (data : Series)
    (r : CoreCheckResult) (acc : List SchemaError) :
    Except SchemaError (List SchemaError) :=
  if r.passed then Except.ok acc
  else collectError lazy acc (SchemaError.ofCoreCheckResult schema data r)

/-- `ArraySchemaBackend.validate`, `array.py` lines 37-109, as a function
from the schema, the input object and the per-call options to the
validated object and the errors collected along the way (the handler state
is threaded explicitly; the `Except.error` branch is a `SchemaError`
raised through the eager handler). Steps, in the source's order:
preprocess; coerce when `schema.coerce`, collecting a coercion
`SchemaError` instead of aborting; subsample the field view and the
whole-object view identically; the four structural checks in the fixed
order name, nullable, unique, dtype (the loop over the 4-tuple at lines
78-83 unrolled), each failed result fed to the error handler; then the
declared checks. The source's `assert all(check_results)` holds because
`run_check` only ever returns `True` (failures raise). The phase from
subsampling onwards is split out below so the two handler modes can be
reasoned about separately; `validateCore` chains the coercion step into
it. -/
def validateChecksPhase (schema : Schema) (check_obj : Series)
    (head tail sample random_state : Option Nat) (lazy : Bool)
    (acc : List SchemaError) :
    Except SchemaError (Series × List SchemaError) :=
  let field_obj_subsample := subsample check_obj head tail sample random_state
  let check_obj_subsample := subsample check_obj head tail sample random_state
  match collectCore lazy schema check_obj (check_name field_obj_subsample schema) acc with
  | Except.error e => Except.error e
  | Except.ok acc1 =>
    match collectCore lazy schema check_obj (check_nullable field_obj_subsample schema) acc1 with
    | Except.error e => Except.error e
    | Except.ok acc2 =>
      match collectCore lazy schema check_obj (check_unique field_obj_subsample schema) acc2 with
      | Except.error e => Except.error e
      | Except.ok acc3 =>
        match collectCore lazy schema check_obj (check_dtype field_obj_subsample schema) acc3 with
        | Except.error e => Except.error e
        | Except.ok acc4 =>
          match run_checks check_obj_subsample schema lazy acc4 with
          | Except.error e => Except.error e
          | Except.ok (_check_results, acc5) => Except.ok (check_obj, acc5)

/-- The whole pipeline: preprocess, the coercion step, then the checking
phase above on the (possibly coerced) object with the coercion step's
collected errors as the handler's starting state. -/
def validateCore (schema : Schema) (check_obj0 : Series)
    (head tail sample random_state : Option Nat) (lazy inplace : Bool) :
    Except SchemaError (Series × List SchemaError) :=
  let check_obj := preprocess check_obj0 inplace
  let afterCoerce : Except SchemaError (Series × List SchemaError) :=
    if schema.coerce then
      match ArraySchemaBackend.coerce_dtype check_obj schema with
      | Except.ok c => Except.ok (c, [])
      | Except.error exc =>
        match collectError lazy [] exc with
        | Except.ok acc => Except.ok (check_obj, acc)
        | Except.error e => Except.error e
    else Except.ok (check_obj, [])
  match afterCoerce with
  | Except.error e => Except.error e
  | Except.ok (check_obj, acc) =>
    validateChecksPhase schema check_obj head tail sample random_state lazy acc

/-- `ArraySchemaBackend.validate`'s outcome as the caller sees it
(`array.py` lines 103-109): an eagerly raised `SchemaError`; or, when lazy
and something was collected, the `SchemaErrors` aggregate of every
collected error in execution order; otherwise the (possibly coerced)
object. -/
def ArraySchemaBackend.validate (schema : Schema) (check_obj : Series)
    (head tail sample random_state : Option Nat) (lazy inplace : Bool) :
    Except ValidateFailure Series :=
  match validateCore schema check_obj head tail sample random_state lazy inplace with
  | Except.error e => Except.error (ValidateFailure.eager e)
  | Except.ok (out, acc) =>
    if lazy && !acc.isEmpty then
      Except.error (ValidateFailure.aggregate ⟨schema.sid, acc, out⟩)
    else
      Except.ok out

/-- `check_obj.pandera.add_schema(schema)`: attach the schema association
through the accessor. -/
def add_schema (s : Series) (schema : Schema) : Series :=
  { s with schemaAssoc := some schema.sid }

/-- `SeriesSchemaBackend.coerce_dtype`, `array.py` lines 291-307: attach
the schema association before coercing when the accessor is available,
delegate to `ArraySchemaBackend.coerce_dtype`, and re-attach the
association to the coerced result when the accessor is available on it. -/
def SeriesSchemaBackend.coerce_dtype (check_obj0 : Series) (schema : Schema) :
    Except SchemaError Series :=
  let check_obj :=
    if check_obj0.hasPandera then add_schema check_obj0 schema else check_obj0
  match ArraySchemaBackend.coerce_dtype check_obj schema with
  | Except.error e => Except.error e
  | Except.ok c =>
    Except.ok (if c.hasPandera then add_schema c schema else c)

/-- An object store: callers hold references (ids) to series objects. The
store makes object identity — `preprocess` returning the object itself
versus a copy, `try_coerce` returning a fresh object — observable in the
embedding. -/
def heapLookup (h : List (Nat × Series)) (i : Nat) : Option Series :=
  match h with
  | [] => none
  | (j, s) :: rest => if j = i then some s else heapLookup rest i

/-- A reference id not yet in use in the store. -/
def heapFresh (h : List (Nat × Series)) : Nat :=
  (h.map Prod.fst).foldr max 0 + 1

/-- Whether the coercion step of a `validate` call on `s` produces a fresh
object: the schema coerces, a dtype is declared and `try_coerce` succeeds
(`array.py` lines 53-57 with lines 126-130; `Dtype.try_coerce` returns a
new object). In every other case — coercion skipped, the no-op branch, or
a coercion failure — the local `check_obj` stays bound to the working
object. -/
def coerceAllocated (schema : Schema) (s : Series) : Bool :=
  schema.coerce &&
    (match schema.dtype with
     | none => false
     | some dt =>
       match dt.try_coerce s with
       | Except.ok _ => true
       | Except.error _ => false)

/-- `validate` at the object-store level. `preprocess` (`array.py` lines
34-35, 51) picks the working object — the caller's own object when
`inplace`, a fresh copy otherwise. No statement of `array.py` writes into
an existing object: line 55 only rebinds the local `check_obj`, to the
fresh object a successful `try_coerce` returns, and line 109 returns
whatever `check_obj` is bound to. So on success the returned reference is
a newly allocated slot holding the coerced object when coercion allocated
one, and the working object's slot otherwise — the caller's own slot
exactly when `inplace` was requested. On failure no reference escapes.
`none` when the reference is dangling. -/
def validateOnHeap (schema : Schema) (h : List (Nat × Series)) (objId : Nat)
    (head tail sample random_state : Option Nat) (lazy inplace : Bool) :
    Option ((Except ValidateFailure Nat) × List (Nat × Series)) :=
  match heapLookup h objId with
  | none => none
  | some s =>
    let workId := if inplace then objId else heapFresh h
    let h1 := if inplace then h else (heapFresh h, s) :: h
    match ArraySchemaBackend.validate schema s head tail sample random_state lazy inplace with
    | Except.ok out =>
      if coerceAllocated schema s then
        some (Except.ok (heapFresh h1), (heapFresh h1, out) :: h1)
      else
        some (Except.ok workId, h1)
    | Except.error e => some (Except.error e, h1)

/-- The error a failed core-check result contributes (none when passed). -/
def coreErrOf (schema : Schema) (data : Series) (r : CoreCheckResult) :
    List SchemaError :=
  if r.passed then [] else [SchemaError.ofCoreCheckResult schema data r]

/-- The errors the four structural checks contribute, in their fixed
execution order, when run on the subsampled field `fsub` with the
(possibly coerced) object `data` snapshotted into each error. -/
def coreErrors (schema : Schema) (data fsub : Series) : List SchemaError :=
  coreErrOf schema data (check_name fsub schema)
    ++ coreErrOf schema data (check_nullable fsub schema)
    ++ coreErrOf schema data (check_unique fsub schema)
    ++ coreErrOf schema data (check_dtype fsub schema)

/-- The `check_results` list `run_checks` builds: one `True` per declared
check whose implementation neither failed nor raised. -/
def expectedCheckResults (check_obj : Series) (checks : List Check) :
    List Bool :=
  match checks with
  | [] => []
  | chk :: rest =>
    (match chk.outcome check_obj with
      | CheckOutcome.passed => [true]
      | _ => []) ++ expectedCheckResults check_obj rest

/-- The errors the declared checks starting at position `idx` contribute,
in declaration order: a structured failure contributes its
`dataframe_check` error, a raised exception (unwrapped from
`DispatchError` to its cause if need be) its `check_error` wrapper. -/
def expectedCheckErrors (check_obj : Series) (schema : Schema) (idx : Nat)
    (checks : List Check) : List SchemaError :=
  match checks with
  | [] => []
  | chk :: rest =>
    (match chk.outcome check_obj with
      | CheckOutcome.passed => []
      | CheckOutcome.failed fcs =>
        [{ schemaRef := schema.sid
           data := some check_obj
           message := some
             ("series '" ++ renderOptName check_obj.name
               ++ "' failed validator " ++ chk.cname)
           failure_cases := some fcs
           check := some chk.cname
           check_index := some idx
           reason_code := some "dataframe_check" }]
      | CheckOutcome.errored cls args =>
        [checkErrorError schema check_obj chk idx cls args]
      | CheckOutcome.dispatchErrored cls args =>
        [checkErrorError schema check_obj chk idx cls args])
      ++ expectedCheckErrors check_obj schema (idx + 1) rest

/-- The object the checking phase operates on: the coerced object when the
schema coerces and coercion succeeded, the preprocessed input otherwise. -/
def coercedObj (schema : Schema) (pre : Series) : Series :=
  if schema.coerce then
    match ArraySchemaBackend.coerce_dtype pre schema with
    | Except.ok c => c
    | Except.error _ => pre
  else pre

/-- The error the coercion step contributes: the coercion `SchemaError`
when the schema coerces and coercion failed, nothing otherwise. -/
def coerceErrors (schema : Schema) (pre : Series) : List SchemaError :=
  if schema.coerce then
    match ArraySchemaBackend.coerce_dtype pre schema with
    | Except.ok _ => []
    | Except.error exc => [exc]
  else []

theorem collectCore_lazy (schema : Schema) (data : Series)
    (r : CoreCheckResult) (acc : List SchemaError) :
    collectCore true schema data r acc =
      Except.ok (acc ++ coreErrOf schema data r) := by
  unfold collectCore coreErrOf collectError
  cases r.passed <;> simp

theorem collectCore_eager_pass (schema : Schema) (data : Series)
    (r : CoreCheckResult) (acc : List SchemaError) (h : r.passed = true) :
    collectCore false schema data r acc = Except.ok acc := by
  unfold collectCore
  simp [h]

theorem collectCore_eager_fail (schema : Schema) (data : Series)
    (r : CoreCheckResult) (acc : List SchemaError) (h : r.passed = false) :
    collectCore false schema data r acc =
      Except.error (SchemaError.ofCoreCheckResult schema data r) := by
  unfold collectCore collectError
  simp [h]

theorem run_checksAux_lazy (check_obj : Series) (schema : Schema)
    (checks : List Check) :
    ∀ idx results acc,
      run_checksAux check_obj schema true idx checks results acc =
        Except.ok (results ++ expectedCheckResults check_obj checks,
          acc ++ expectedCheckErrors check_obj schema idx checks) := by
  induction checks with
  | nil =>
    intro idx results acc
    simp [run_checksAux, expectedCheckResults, expectedCheckErrors]
  | cons chk rest ih =>
    intro idx results acc
    rw [run_checksAux, run_check]
    cases h : chk.outcome check_obj with
    | passed =>
      simp [collectError, expectedCheckResults, expectedCheckErrors, h, ih]
    | failed fcs =>
      simp [collectError, expectedCheckResults, expectedCheckErrors, h, ih]
    | errored cls args =>
      simp [collectError, expectedCheckResults, expectedCheckErrors, h, ih]
    | dispatchErrored cls args =>
      simp [collectError, expectedCheckResults, expectedCheckErrors, h, ih]

theorem validateChecksPhase_lazy (schema : Schema) (obj : Series)
    (head tail sample random_state : Option Nat) (acc : List SchemaError) :
    validateChecksPhase schema obj head tail sample random_state true acc =
      Except.ok (obj, acc
        ++ coreErrors schema obj (subsample obj head tail sample random_state)
        ++ expectedCheckErrors (subsample obj head tail sample random_state)
          schema 0 schema.checks) := by
  unfold validateChecksPhase run_checks
  simp [collectCore_lazy, run_checksAux_lazy, coreErrors, List.append_assoc]

theorem validateCore_lazy (schema : Schema) (s0 : Series)
    (head tail sample random_state : Option Nat) (inplace : Bool) :
    validateCore schema s0 head tail sample random_state true inplace =
      Except.ok (coercedObj schema (preprocess s0 inplace),
        coerceErrors schema (preprocess s0 inplace)
          ++ coreErrors schema (coercedObj schema (preprocess s0 inplace))
              (subsample (coercedObj schema (preprocess s0 inplace))
                head tail sample random_state)
          ++ expectedCheckErrors
              (subsample (coercedObj schema (preprocess s0 inplace))
                head tail sample random_state)
              schema 0 schema.checks) := by
  simp only [validateCore, coercedObj, coerceErrors]
  cases hc : schema.coerce with
  | false =>
    simp [validateChecksPhase_lazy, List.append_assoc]
  | true =>
    cases hcd : ArraySchemaBackend.coerce_dtype (preprocess s0 inplace) schema with
    | ok c =>
      simp [collectError, validateChecksPhase_lazy, List.append_assoc]
    | error exc =>
      simp [collectError, validateChecksPhase_lazy, List.append_assoc]

/-! Concrete fixtures used by the witness theorems. -/

/-- An integer dtype descriptor: integers coerce to themselves, nulls and
strings are uncoercible; the compatibility check is the scalar comparison
of the runtime dtype name with `int64`. -/
def intDtype : Dtype :=
  { dname := "int64"
    coerceVal := fun v => match v with
      | Val.int n => some (Val.int n)
      | _ => none
    checkFn := fun rt _ => DtypeCheckOut.scalar (rt == "int64") }

/-- An element-wise integer dtype descriptor: the compatibility check
returns a per-element mask (true exactly on integer cells). -/
def intMaskDtype : Dtype :=
  { dname := "Int64Parseable"
    coerceVal := fun v => match v with
      | Val.int n => some (Val.int n)
      | _ => none
    checkFn := fun _ vals => DtypeCheckOut.mask (vals.map (fun v =>
        match v with
        | Val.int _ => true
        | _ => false)) }

/-- Non-nullable unique int column schema with no dtype and no coercion. -/
def schemaND : Schema :=
  { sid := 7, name := some "col", dtype := none, nullable := false,
    unique := true, report_duplicates := ReportDuplicates.exclude_first,
    coerce := false, checks := [] }

/-- A coercing schema over `intDtype`. -/
def coerceSchema : Schema :=
  { sid := 9, name := some "col", dtype := some intDtype, nullable := false,
    unique := false, report_duplicates := ReportDuplicates.exclude_first,
    coerce := true, checks := [] }

/-- A unique-values schema parameterized by the duplicate-report setting. -/
def uniqueSchema (rd : ReportDuplicates) : Schema :=
  { sid := 4, name := some "col", dtype := none, nullable := true,
    unique := true, report_duplicates := rd, coerce := false, checks := [] }

/-- A series with a duplicate value and a null. -/
def sNulldup : Series :=
  { name := some "col", dtypeName := "int64",
    toList := [(0, Val.int 1), (1, Val.int 1), (2, Val.null)],
    hasPandera := true, schemaAssoc := none }

/-- The spec's `[1,1,2,1]` example column. -/
def s14 : Series :=
  { name := some "col", dtypeName := "int64",
    toList := [(0, Val.int 1), (1, Val.int 1), (2, Val.int 2), (3, Val.int 1)],
    hasPandera := true, schemaAssoc := none }

/-- A conforming integer column carrying a schema association from a prior
validation. -/
def sAssoc : Series :=
  { name := some "col", dtypeName := "int64",
    toList := [(0, Val.int 1), (1, Val.int 2)],
    hasPandera := true, schemaAssoc := some 3 }

/-- `ArraySchemaBackend.coerce_dtype` never changes which object class the
input has: the accessor's availability survives both the no-op branch and
`try_coerce` (the accessor is registered on the class, not the instance). -/
theorem coerce_dtype_hasPandera (x : Series) (schema : Schema) (c : Series)
    (h : ArraySchemaBackend.coerce_dtype x schema = Except.ok c) :
    c.hasPandera = x.hasPandera := by
  cases hd : schema.dtype with
  | none =>
    unfold ArraySchemaBackend.coerce_dtype at h
    rw [hd] at h
    cases h
    rfl
  | some dt =>
    cases hco : schema.coerce with
    | false =>
      unfold ArraySchemaBackend.coerce_dtype at h
      rw [hd, hco] at h
      cases h
      rfl
    | true =>
      unfold ArraySchemaBackend.coerce_dtype at h
      rw [hd, hco] at h
      dsimp only at h
      cases htc : dt.try_coerce x with
      | ok co =>
        rw [htc] at h
        cases h
        unfold Dtype.try_coerce at htc
        dsimp only at htc
        split at htc
        · cases htc
          rfl
        · cases htc
      | error e =>
        rw [htc] at h
        cases h

/-- C9: for every input that carries an attached schema association (so
the accessor is available on it), a successful
`SeriesSchemaBackend.coerce_dtype` returns a coerced object still carrying
the schema association (the validating schema's). -/
theorem series_coerce_dtype_retains_schema_association
    (s : Series) (schema : Schema) (a : Nat)
    (hp : s.hasPandera = true) (_ha : s.schemaAssoc = some a)
    (out : Series)
    (hok : SeriesSchemaBackend.coerce_dtype s schema = Except.ok out) :
    out.schemaAssoc = some schema.sid := by
  unfold SeriesSchemaBackend.coerce_dtype at hok
  simp only [hp, if_true] at hok
  cases hc : ArraySchemaBackend.coerce_dtype (add_schema s schema) schema with
  | ok c =>
    rw [hc] at hok
    cases hok
    have hcp : c.hasPandera = true := by
      rw [coerce_dtype_hasPandera (add_schema s schema) schema c hc]
      exact hp
    rw [hcp]
    simp [add_schema]
  | error e =>
    rw [hc] at hok
    cases hok

/-- Witness for C9 at a concrete association-carrying series. -/
theorem series_coerce_dtype_retains_schema_association_witness :
    sAssoc.hasPandera = true ∧ sAssoc.schemaAssoc = some 3 ∧
      ∃ out, SeriesSchemaBackend.coerce_dtype sAssoc coerceSchema = Except.ok out
        ∧ out.schemaAssoc = some coerceSchema.sid :=
  ⟨rfl, rfl,
    { name := some "col", dtypeName := "int64",
      toList := [(0, Val.int 1), (1, Val.int 2)],
      hasPandera := true, schemaAssoc := some 9 },
    rfl,
    series_coerce_dtype_retains_schema_association sAssoc coerceSchema 3
      rfl rfl _ rfl⟩

/-- C10: with no declared dtype, `coerce_dtype` returns its input
unchanged and raises no error, whatever the coerce flag. -/
theorem coerce_dtype_no_dtype_is_noop (schema : Schema) (s : Series)
    (h : schema.dtype = none) :
    ArraySchemaBackend.coerce_dtype s schema = Except.ok s := by
  unfold ArraySchemaBackend.coerce_dtype
  rw [h]

/-- Witness for C10: `schemaND` declares no dtype. -/
theorem coerce_dtype_no_dtype_is_noop_witness :
    schemaND.dtype = none ∧
      ArraySchemaBackend.coerce_dtype sNulldup schemaND = Except.ok sNulldup :=
  ⟨rfl, coerce_dtype_no_dtype_is_noop schemaND sNulldup rfl⟩

/-- C4: in every lazy validate call the collected error sequence is
exactly: the coercion step's errors, then the failed results of the four
structural checks in the fixed order name, nullable, unique, dtype (run
unconditionally on the subsampled field, each failed result fed to the
error handler as a `SchemaError`), then the declared checks' errors in
declaration order — and the call's outcome is determined by that
sequence. In eager mode a failed result terminates the call instead
(theorem `eager_mode_first_error_in_fixed_order`). -/
theorem structural_checks_fixed_order_then_declared
    (schema : Schema) (s0 : Series)
    (head tail sample random_state : Option Nat) (inplace : Bool) :
    ArraySchemaBackend.validate schema s0 head tail sample random_state
        true inplace =
      (let obj := coercedObj schema (preprocess s0 inplace)
       let fsub := subsample obj head tail sample random_state
       let errs := coerceErrors schema (preprocess s0 inplace)
         ++ (coreErrOf schema obj (check_name fsub schema)
             ++ coreErrOf schema obj (check_nullable fsub schema)
             ++ coreErrOf schema obj (check_unique fsub schema)
             ++ coreErrOf schema obj (check_dtype fsub schema))
         ++ expectedCheckErrors fsub schema 0 schema.checks
       if errs.isEmpty then Except.ok obj
       else Except.error (ValidateFailure.aggregate ⟨schema.sid, errs, obj⟩)) := by
  unfold ArraySchemaBackend.validate
  rw [validateCore_lazy]
  dsimp only
  rw [show (coreErrOf schema (coercedObj schema (preprocess s0 inplace))
      (check_name (subsample (coercedObj schema (preprocess s0 inplace))
        head tail sample random_state) schema)
    ++ coreErrOf schema (coercedObj schema (preprocess s0 inplace))
      (check_nullable (subsample (coercedObj schema (preprocess s0 inplace))
        head tail sample random_state) schema)
    ++ coreErrOf schema (coercedObj schema (preprocess s0 inplace))
      (check_unique (subsample (coercedObj schema (preprocess s0 inplace))
        head tail sample random_state) schema)
    ++ coreErrOf schema (coercedObj schema (preprocess s0 inplace))
      (check_dtype (subsample (coercedObj schema (preprocess s0 inplace))
        head tail sample random_state) schema)) =
      coreErrors schema (coercedObj schema (preprocess s0 inplace))
        (subsample (coercedObj schema (preprocess s0 inplace))
          head tail sample random_state) from by
    simp [coreErrors, List.append_assoc]]
  cases he : (coerceErrors schema (preprocess s0 inplace)
      ++ coreErrors schema (coercedObj schema (preprocess s0 inplace))
        (subsample (coercedObj schema (preprocess s0 inplace))
          head tail sample random_state)
      ++ expectedCheckErrors (subsample (coercedObj schema (preprocess s0 inplace))
          head tail sample random_state) schema 0 schema.checks).isEmpty
  · simp [he]
  · simp [he]

/-- C2: in lazy mode nothing is raised while individual checks execute
(the outcome is never an eagerly raised error); the call either succeeds,
when the collected list is empty, or raises one aggregate holding every
collected error in check-execution order; and on the concrete column with
a null in a non-nullable schema and a duplicate under a unique schema the
aggregate contains both a `series_contains_nulls` and a
`series_contains_duplicates` error. -/
theorem lazy_mode_aggregates_all_collected_errors
    (schema : Schema) (s0 : Series)
    (head tail sample random_state : Option Nat) (inplace : Bool) :
    (∀ e, ArraySchemaBackend.validate schema s0 head tail sample random_state
        true inplace ≠ Except.error (ValidateFailure.eager e))
    ∧ (let obj := coercedObj schema (preprocess s0 inplace)
       let fsub := subsample obj head tail sample random_state
       let errs := coerceErrors schema (preprocess s0 inplace)
         ++ coreErrors schema obj fsub
         ++ expectedCheckErrors fsub schema 0 schema.checks
       (errs = [] ∧ ArraySchemaBackend.validate schema s0 head tail sample
            random_state true inplace = Except.ok obj)
       ∨ (errs ≠ [] ∧ ArraySchemaBackend.validate schema s0 head tail sample
            random_state true inplace =
              Except.error (ValidateFailure.aggregate ⟨schema.sid, errs, obj⟩)))
    ∧ ((match ArraySchemaBackend.validate schemaND sNulldup none none none none
          true false with
        | Except.error (ValidateFailure.aggregate errs) =>
          errs.schema_errors.any
              (fun e => e.reason_code == some "series_contains_nulls")
            && errs.schema_errors.any
              (fun e => e.reason_code == some "series_contains_duplicates")
        | _ => false) = true) := by
  refine ⟨?_, ?_, ?_⟩
  · intro e
    unfold ArraySchemaBackend.validate
    rw [validateCore_lazy]
    dsimp only
    cases (true && !(coerceErrors schema (preprocess s0 inplace)
        ++ coreErrors schema (coercedObj schema (preprocess s0 inplace))
          (subsample (coercedObj schema (preprocess s0 inplace))
            head tail sample random_state)
        ++ expectedCheckErrors (subsample (coercedObj schema (preprocess s0 inplace))
            head tail sample random_state) schema 0 schema.checks).isEmpty) <;>
      simp
  · dsimp only
    cases he : (coerceErrors schema (preprocess s0 inplace)
        ++ coreErrors schema (coercedObj schema (preprocess s0 inplace))
          (subsample (coercedObj schema (preprocess s0 inplace))
            head tail sample random_state)
        ++ expectedCheckErrors (subsample (coercedObj schema (preprocess s0 inplace))
            head tail sample random_state) schema 0 schema.checks).isEmpty
    · right
      constructor
      · intro hcon
        rw [hcon] at he
        simp at he
      · unfold ArraySchemaBackend.validate
        rw [validateCore_lazy]
        dsimp only
        rw [he]
        simp
    · left
      constructor
      · exact List.isEmpty_iff.mp he
      · unfold ArraySchemaBackend.validate
        rw [validateCore_lazy]
        dsimp only
        rw [he]
        simp
  · decide

/-- Any `SchemaError` raised by the coercion step carries reason code
`coerce_dtype`. -/
theorem coerce_dtype_error_reason (x : Series) (schema : Schema)
    (exc : SchemaError)
    (h : ArraySchemaBackend.coerce_dtype x schema = Except.error exc) :
    exc.reason_code = some "coerce_dtype" := by
  cases hd : schema.dtype with
  | none =>
    unfold ArraySchemaBackend.coerce_dtype at h
    rw [hd] at h
    cases h
  | some dt =>
    cases hco : schema.coerce with
    | false =>
      unfold ArraySchemaBackend.coerce_dtype at h
      rw [hd, hco] at h
      cases h
    | true =>
      unfold ArraySchemaBackend.coerce_dtype at h
      rw [hd, hco] at h
      dsimp only at h
      cases htc : dt.try_coerce x with
      | ok co =>
        rw [htc] at h
        cases h
      | error e =>
        rw [htc] at h
        cases h
        rfl

/-- C1: when the schema coerces and the coercion step fails with `exc`,
a lazy validate call collects `exc` — which carries reason code
`coerce_dtype` — and continues: the field is subsampled, the four
structural checks and the declared checks still run on the uncoerced
object, and the aggregate reports the coercion failure first, followed by
the structural and declared-check failures. -/
theorem coerce_failure_collected_then_validation_continues
    (schema : Schema) (s0 : Series)
    (head tail sample random_state : Option Nat) (inplace : Bool)
    (exc : SchemaError)
    (hcoerce : schema.coerce = true)
    (hfail : ArraySchemaBackend.coerce_dtype (preprocess s0 inplace) schema
      = Except.error exc) :
    exc.reason_code = some "coerce_dtype"
    ∧ ArraySchemaBackend.validate schema s0 head tail sample random_state
        true inplace =
      Except.error (ValidateFailure.aggregate
        ⟨schema.sid,
          exc :: (coreErrors schema (preprocess s0 inplace)
              (subsample (preprocess s0 inplace) head tail sample random_state)
            ++ expectedCheckErrors
              (subsample (preprocess s0 inplace) head tail sample random_state)
              schema 0 schema.checks),
          preprocess s0 inplace⟩) := by
  have h1 : coercedObj schema (preprocess s0 inplace) = preprocess s0 inplace := by
    simp [coercedObj, hcoerce, hfail]
  have h2 : coerceErrors schema (preprocess s0 inplace) = [exc] := by
    simp [coerceErrors, hcoerce, hfail]
  refine ⟨coerce_dtype_error_reason _ _ _ hfail, ?_⟩
  unfold ArraySchemaBackend.validate
  rw [validateCore_lazy, h1, h2]
  simp

/-- The coercion `SchemaError` that `coerceSchema` raises on `sNulldup`
(the null cell at index 2 cannot be coerced to `int64`). -/
def coerceExc : SchemaError :=
  { schemaRef := 9
    data := some sNulldup
    message := some
      "Error while coercing 'col' to type int64: parser error:\n2: NaN"
    failure_cases := some [⟨some 2, Val.null⟩]
    check := some "coerce_dtype('int64')"
    check_index := none
    reason_code := some "coerce_dtype" }

/-- Witness for C1: `coerceSchema` coerces, coercion of `sNulldup` fails
with `coerceExc`, and the lazy call aggregates the coercion failure
together with the later structural failures. -/
theorem coerce_failure_collected_then_validation_continues_witness :
    coerceSchema.coerce = true
    ∧ ArraySchemaBackend.coerce_dtype (preprocess sNulldup false) coerceSchema
        = Except.error coerceExc
    ∧ (coerceExc.reason_code = some "coerce_dtype"
       ∧ ArraySchemaBackend.validate coerceSchema sNulldup none none none none
           true false =
         Except.error (ValidateFailure.aggregate
           ⟨coerceSchema.sid,
             coerceExc :: (coreErrors coerceSchema (preprocess sNulldup false)
                 (subsample (preprocess sNulldup false) none none none none)
               ++ expectedCheckErrors
                 (subsample (preprocess sNulldup false) none none none none)
                 coerceSchema 0 coerceSchema.checks),
             preprocess sNulldup false⟩)) :=
  ⟨rfl, rfl,
    coerce_failure_collected_then_validation_continues coerceSchema sNulldup
      none none none none false coerceExc rfl rfl⟩

/-- C7: lazy `run_checks` never propagates a declared check's exception:
(1) the whole declared-check list is processed, collecting exactly the
per-check errors in order; (2) a check whose implementation raises an
arbitrary exception has it wrapped as a `SchemaError` collected under
reason code `check_error` while the remaining checks still run and
contribute their results and errors; (3) the wrapper's reason code is
`check_error`; (4) a `DispatchError` is first unwrapped to its underlying
cause: a check raising `DispatchError` with cause `cls(args)` is collected
exactly as one raising `cls(args)` directly. -/
theorem run_checks_wraps_errors_and_continues
    (check_obj : Series) (schema : Schema) (acc : List SchemaError) :
    run_checks check_obj schema true acc =
      Except.ok (expectedCheckResults check_obj schema.checks,
        acc ++ expectedCheckErrors check_obj schema 0 schema.checks)
    ∧ (∀ (chk : Check) (rest : List Check) (idx : Nat)
          (cls : String) (args : List String),
        chk.outcome check_obj = CheckOutcome.errored cls args →
        run_checksAux check_obj schema true idx (chk :: rest) [] acc =
          Except.ok (expectedCheckResults check_obj rest,
            acc ++ (checkErrorError schema check_obj chk idx cls args
              :: expectedCheckErrors check_obj schema (idx + 1) rest)))
    ∧ (∀ (chk : Check) (idx : Nat) (cls : String) (args : List String),
        (checkErrorError schema check_obj chk idx cls args).reason_code =
          some "check_error")
    ∧ (∀ (cname : String) (cls : String) (args : List String)
          (rest : List Check) (idx : Nat),
        run_checksAux check_obj schema true idx
            ({ cname := cname,
               outcome := fun _ => CheckOutcome.dispatchErrored cls args } :: rest)
            [] acc
          = run_checksAux check_obj schema true idx
            ({ cname := cname,
               outcome := fun _ => CheckOutcome.errored cls args } :: rest)
            [] acc) := by
  refine ⟨?_, ?_, ?_, ?_⟩
  · unfold run_checks
    exact run_checksAux_lazy check_obj schema schema.checks 0 [] acc
  · intro chk rest idx cls args hout
    rw [run_checksAux_lazy]
    simp [expectedCheckResults, expectedCheckErrors, hout]
  · intro chk idx cls args
    rfl
  · intro cname cls args rest idx
    rw [run_checksAux_lazy, run_checksAux_lazy]
    simp [expectedCheckResults, expectedCheckErrors, checkErrorError]

/-- The error of the earliest failing structural check in the fixed order
name, nullable, unique, dtype (none when all four pass). -/
def firstCoreError (schema : Schema) (obj fsub : Series) : Option SchemaError :=
  if (check_name fsub schema).passed = false then
    some (SchemaError.ofCoreCheckResult schema obj (check_name fsub schema))
  else if (check_nullable fsub schema).passed = false then
    some (SchemaError.ofCoreCheckResult schema obj (check_nullable fsub schema))
  else if (check_unique fsub schema).passed = false then
    some (SchemaError.ofCoreCheckResult schema obj (check_unique fsub schema))
  else if (check_dtype fsub schema).passed = false then
    some (SchemaError.ofCoreCheckResult schema obj (check_dtype fsub schema))
  else none

theorem validateChecksPhase_eager_first (schema : Schema) (obj : Series)
    (head tail sample random_state : Option Nat) (acc : List SchemaError)
    (e : SchemaError)
    (hfirst : firstCoreError schema obj
        (subsample obj head tail sample random_state) = some e) :
    validateChecksPhase schema obj head tail sample random_state false acc =
      Except.error e := by
  unfold validateChecksPhase
  rw [firstCoreError] at hfirst
  dsimp only
  by_cases hn : (check_name (subsample obj head tail sample random_state) schema).passed = false
  · rw [if_pos hn] at hfirst
    injection hfirst with he
    rw [collectCore_eager_fail _ _ _ _ hn, he]
  · rw [if_neg hn] at hfirst
    have hn' : (check_name (subsample obj head tail sample random_state) schema).passed = true := by
      revert hn
      cases (check_name (subsample obj head tail sample random_state) schema).passed <;> simp
    rw [collectCore_eager_pass _ _ _ _ hn']
    dsimp only
    by_cases h2 : (check_nullable (subsample obj head tail sample random_state) schema).passed = false
    · rw [if_pos h2] at hfirst
      injection hfirst with he
      rw [collectCore_eager_fail _ _ _ _ h2, he]
    · rw [if_neg h2] at hfirst
      have h2' : (check_nullable (subsample obj head tail sample random_state) schema).passed = true := by
        revert h2
        cases (check_nullable (subsample obj head tail sample random_state) schema).passed <;> simp
      rw [collectCore_eager_pass _ _ _ _ h2']
      dsimp only
      by_cases h3 : (check_unique (subsample obj head tail sample random_state) schema).passed = false
      · rw [if_pos h3] at hfirst
        injection hfirst with he
        rw [collectCore_eager_fail _ _ _ _ h3, he]
      · rw [if_neg h3] at hfirst
        have h3' : (check_unique (subsample obj head tail sample random_state) schema).passed = true := by
          revert h3
          cases (check_unique (subsample obj head tail sample random_state) schema).passed <;> simp
        rw [collectCore_eager_pass _ _ _ _ h3']
        dsimp only
        by_cases h4 : (check_dtype (subsample obj head tail sample random_state) schema).passed = false
        · rw [if_pos h4] at hfirst
          injection hfirst with he
          rw [collectCore_eager_fail _ _ _ _ h4, he]
        · rw [if_neg h4] at hfirst
          cases hfirst

/-- Replacing the declared checks of a schema changes nothing the coercion
step reads. -/
theorem coerce_dtype_checks_irrelevant (x : Series) (schema : Schema)
    (cs : List Check) :
    ArraySchemaBackend.coerce_dtype x { schema with checks := cs } =
      ArraySchemaBackend.coerce_dtype x schema := rfl

/-- Replacing the declared checks changes nothing `coercedObj` reads. -/
theorem coercedObj_checks_irrelevant (pre : Series) (schema : Schema)
    (cs : List Check) :
    coercedObj { schema with checks := cs } pre = coercedObj schema pre := rfl

/-- Replacing the declared checks changes nothing `coerceErrors` reads. -/
theorem coerceErrors_checks_irrelevant (pre : Series) (schema : Schema)
    (cs : List Check) :
    coerceErrors { schema with checks := cs } pre = coerceErrors schema pre := rfl

/-- Replacing the declared checks changes nothing the structural checks
read. -/
theorem firstCoreError_checks_irrelevant (obj fsub : Series) (schema : Schema)
    (cs : List Check) :
    firstCoreError { schema with checks := cs } obj fsub =
      firstCoreError schema obj fsub := rfl

theorem validateCore_eager_coerce_fail (schema : Schema) (s0 : Series)
    (head tail sample random_state : Option Nat) (inplace : Bool)
    (exc : SchemaError)
    (hco : schema.coerce = true)
    (hfail : ArraySchemaBackend.coerce_dtype (preprocess s0 inplace) schema
      = Except.error exc) :
    validateCore schema s0 head tail sample random_state false inplace =
      Except.error exc := by
  unfold validateCore
  simp [hco, hfail, collectError]

theorem validateCore_eager_first (schema : Schema) (s0 : Series)
    (head tail sample random_state : Option Nat) (inplace : Bool)
    (e : SchemaError)
    (hnc : coerceErrors schema (preprocess s0 inplace) = [])
    (hfirst : firstCoreError schema (coercedObj schema (preprocess s0 inplace))
        (subsample (coercedObj schema (preprocess s0 inplace))
          head tail sample random_state) = some e) :
    validateCore schema s0 head tail sample random_state false inplace =
      Except.error e := by
  unfold validateCore
  cases hc : schema.coerce with
  | false =>
    have hobj : coercedObj schema (preprocess s0 inplace) = preprocess s0 inplace := by
      simp [coercedObj, hc]
    rw [hobj] at hfirst
    simp only [hc, Bool.false_eq_true, if_false]
    exact validateChecksPhase_eager_first _ _ _ _ _ _ _ _ hfirst
  | true =>
    cases hcd : ArraySchemaBackend.coerce_dtype (preprocess s0 inplace) schema with
    | error exc =>
      exfalso
      rw [coerceErrors, hc] at hnc
      simp only [if_pos rfl] at hnc
      rw [hcd] at hnc
      cases hnc
    | ok c =>
      have hobj : coercedObj schema (preprocess s0 inplace) = c := by
        simp [coercedObj, hc, hcd]
      rw [hobj] at hfirst
      simp only [hc, if_true]
      rw [hcd]
      exact validateChecksPhase_eager_first _ _ _ _ _ _ _ _ hfirst

/-- A declared check whose implementation raises `ValueError("boom")`. -/
def raisingCheck : Check :=
  { cname := "boom"
    outcome := fun _ => CheckOutcome.errored "ValueError" ["boom"] }

/-- A series violating name, nullability, uniqueness and dtype at once. -/
def sBad : Series :=
  { name := some "actual", dtypeName := "object",
    toList := [(0, Val.int 1), (1, Val.int 1), (2, Val.null)],
    hasPandera := true, schemaAssoc := none }

/-- A non-coercing schema on which `sBad` violates every structural check,
with a declared check that would raise if it ever ran. -/
def schemaMulti : Schema :=
  { sid := 11, name := some "expected", dtype := some intDtype,
    nullable := false, unique := true,
    report_duplicates := ReportDuplicates.exclude_first,
    coerce := false, checks := [raisingCheck] }

/-- C3: with `lazy=false` the first collected error terminates the call:
(1) a coercion failure is raised at once, whatever the declared checks;
(2) otherwise the raised error is the earliest failing structural check in
the fixed order name, nullable, unique, dtype (`firstCoreError`), again
independent of the declared checks — so no declared check executes after a
structural violation; (3) concretely, a column violating name, nullable,
unique and dtype at once under a schema whose declared check would raise
yields exactly the name error. -/
theorem eager_mode_first_error_in_fixed_order
    (schema : Schema) (s0 : Series)
    (head tail sample random_state : Option Nat) (inplace : Bool) :
    (∀ (exc : SchemaError) (cs : List Check), schema.coerce = true →
      ArraySchemaBackend.coerce_dtype (preprocess s0 inplace) schema =
        Except.error exc →
      ArraySchemaBackend.validate { schema with checks := cs } s0
          head tail sample random_state false inplace =
        Except.error (ValidateFailure.eager exc))
    ∧ (∀ (e : SchemaError) (cs : List Check),
      coerceErrors schema (preprocess s0 inplace) = [] →
      firstCoreError schema (coercedObj schema (preprocess s0 inplace))
          (subsample (coercedObj schema (preprocess s0 inplace))
            head tail sample random_state) = some e →
      ArraySchemaBackend.validate { schema with checks := cs } s0
          head tail sample random_state false inplace =
        Except.error (ValidateFailure.eager e))
    ∧ ArraySchemaBackend.validate schemaMulti sBad none none none none
        false false =
      Except.error (ValidateFailure.eager
        (SchemaError.ofCoreCheckResult schemaMulti sBad
          (check_name sBad schemaMulti))) := by
  refine ⟨?_, ?_, ?_⟩
  · intro exc cs hco hfail
    unfold ArraySchemaBackend.validate
    rw [validateCore_eager_coerce_fail { schema with checks := cs } s0
      head tail sample random_state inplace exc hco hfail]
  · intro e cs hnc hfirst
    unfold ArraySchemaBackend.validate
    rw [validateCore_eager_first { schema with checks := cs } s0
      head tail sample random_state inplace e hnc hfirst]
  · rfl

/-- C6: `check_unique` passes iff uniqueness is not declared or the
`duplicated` mask under the schema's keep policy flags nothing; the result
depends only on the rows and the policy (re-evaluation on equal data gives
equal outcome); and on the spec's `[1,1,2,1]` column the three keep
policies flag exactly rows {1,3} (exclude_first), {0,1} (exclude_last) and
{0,1,3} (all). -/
theorem check_unique_pass_iff_and_keep_policies (s : Series) (schema : Schema) :
    ((check_unique s schema).passed = true ↔
      (schema.unique = false ∨
        (duplicated s.values
          (convert_uniquesettings schema.report_duplicates)).any id = false))
    ∧ (∀ s2 : Series, s2.toList = s.toList →
        (check_unique s2 schema).passed = (check_unique s schema).passed
        ∧ (check_unique s2 schema).failure_cases =
            (check_unique s schema).failure_cases)
    ∧ duplicated s14.values Keep.first = [false, true, false, true]
    ∧ duplicated s14.values Keep.last = [true, true, false, false]
    ∧ duplicated s14.values Keep.flagAll = [true, true, false, true]
    ∧ (check_unique s14 (uniqueSchema ReportDuplicates.exclude_first)).failure_cases
        = some [⟨some 1, Val.int 1⟩, ⟨some 3, Val.int 1⟩]
    ∧ (check_unique s14 (uniqueSchema ReportDuplicates.exclude_last)).failure_cases
        = some [⟨some 0, Val.int 1⟩, ⟨some 1, Val.int 1⟩]
    ∧ (check_unique s14 (uniqueSchema ReportDuplicates.all)).failure_cases
        = some [⟨some 0, Val.int 1⟩, ⟨some 1, Val.int 1⟩, ⟨some 3, Val.int 1⟩] := by
  refine ⟨?_, ?_, by decide, by decide, by decide, by decide, by decide, by decide⟩
  · unfold check_unique
    cases hu : schema.unique with
    | false => simp
    | true =>
      dsimp only
      cases hd : (duplicated s.values
          (convert_uniquesettings schema.report_duplicates)).any id with
      | false => simp [hd]
      | true => simp [hd]
  · intro s2 h
    have hv : s2.values = s.values := by
      unfold Series.values
      rw [h]
    unfold check_unique
    cases hu : schema.unique with
    | false => simp
    | true =>
      dsimp only
      rw [hv]
      unfold seriesSelect
      rw [h]
      cases hd : (duplicated s.values
          (convert_uniquesettings schema.report_duplicates)).any id <;>
        simp [hd]

/-- Selecting rows where the negated mask is true and reshaping with
nulls kept equals directly keeping one failure case per false mask
entry. -/
theorem select_not_reshape (l : List (Nat × Val)) (m : List Bool) :
    reshape_failure_cases ((l.zip (m.map not)).filterMap
      (fun pb => if pb.2 then some pb.1 else none)) false =
      (l.zip m).filterMap (fun pb =>
        if pb.2 then none
        else some (⟨some pb.1.1, pb.1.2⟩ : FailureCase)) := by
  induction l generalizing m with
  | nil => simp [reshape_failure_cases]
  | cons p rest ih =>
    cases m with
    | nil => simp [reshape_failure_cases]
    | cons b mrest =>
      cases b <;> simpa [reshape_failure_cases] using ih mrest

/-- With the mask as long as the column, the failure-case list has exactly
one entry per false mask entry. -/
theorem mask_failures_length (l : List (Nat × Val)) (m : List Bool)
    (h : m.length = l.length) :
    ((l.zip m).filterMap (fun pb =>
      if pb.2 then none
      else some (⟨some pb.1.1, pb.1.2⟩ : FailureCase))).length =
      (m.filter (fun b => b = false)).length := by
  induction l generalizing m with
  | nil =>
    cases m with
    | nil => simp
    | cons b mrest => cases h
  | cons p rest ih =>
    cases m with
    | nil => cases h
    | cons b mrest =>
      have h' : mrest.length = rest.length := by
        simp only [List.length_cons] at h
        omega
      cases b <;> simp [ih mrest h']

/-- C5: `check_dtype` always reports under reason code `wrong_dtype`; it
passes iff no dtype is declared or the declared dtype's compatibility
check accepts the column; a scalar-shaped check result yields exactly one
synthetic failure case holding the actual dtype name; a mask-shaped result
yields one failure case per non-conforming row (kept even when null), one
entry per false mask entry; and a lazy non-coercing validate call whose
only violation is the dtype check raises an aggregate holding exactly that
one `wrong_dtype` error. -/
theorem check_dtype_shapes_and_single_error (s : Series) (schema : Schema) :
    (check_dtype s schema).reason_code = "wrong_dtype"
    ∧ ((check_dtype s schema).passed = true ↔
        (schema.dtype = none ∨ ∃ dt, schema.dtype = some dt ∧
          (dt.checkFn s.dtypeName s.values).allPass = true))
    ∧ (∀ (dt : Dtype) (b : Bool), schema.dtype = some dt →
        dt.checkFn s.dtypeName s.values = DtypeCheckOut.scalar b →
        (check_dtype s schema).failure_cases =
          some [⟨none, Val.str s.dtypeName⟩])
    ∧ (∀ (dt : Dtype) (m : List Bool), schema.dtype = some dt →
        dt.checkFn s.dtypeName s.values = DtypeCheckOut.mask m →
        (check_dtype s schema).failure_cases =
          some ((s.toList.zip m).filterMap (fun pb =>
            if pb.2 then none
            else some (⟨some pb.1.1, pb.1.2⟩ : FailureCase)))
        ∧ (m.length = s.toList.length →
            ((s.toList.zip m).filterMap (fun pb =>
              if pb.2 then none
              else some (⟨some pb.1.1, pb.1.2⟩ : FailureCase))).length =
              (m.filter (fun b => b = false)).length))
    ∧ (schema.coerce = false →
        (check_name s schema).passed = true →
        (check_nullable s schema).passed = true →
        (check_unique s schema).passed = true →
        (check_dtype s schema).passed = false →
        schema.checks = [] →
        ArraySchemaBackend.validate schema s none none none none true false =
          Except.error (ValidateFailure.aggregate ⟨schema.sid,
            [SchemaError.ofCoreCheckResult schema s (check_dtype s schema)],
            s⟩)) := by
  refine ⟨?_, ?_, ?_, ?_, ?_⟩
  · unfold check_dtype
    cases hdt : schema.dtype with
    | none => rfl
    | some dt =>
      dsimp only
      cases hc : dt.checkFn s.dtypeName s.values <;> rfl
  · unfold check_dtype
    cases hdt : schema.dtype with
    | none => simp
    | some dt =>
      cases hc : dt.checkFn s.dtypeName s.values with
      | scalar b => simp [DtypeCheckOut.allPass, hc]
      | mask m => simp [DtypeCheckOut.allPass, hc]
  · intro dt b hdt hc
    unfold check_dtype
    rw [hdt]
    dsimp only
    rw [hc]
    rfl
  · intro dt m hdt hc
    constructor
    · unfold check_dtype
      rw [hdt]
      dsimp only
      rw [hc]
      dsimp only
      rw [show seriesSelect s (m.map not) = (s.toList.zip (m.map not)).filterMap
          (fun pb => if pb.2 then some pb.1 else none) from rfl]
      rw [select_not_reshape]
    · intro hlen
      exact mask_failures_length s.toList m (by rw [hlen])
  · intro hcf hn hnl hu hd hchk
    unfold ArraySchemaBackend.validate
    rw [validateCore_lazy]
    simp [preprocess, coercedObj, coerceErrors, subsample, coreErrors,
      coreErrOf, hcf, hn, hnl, hu, hd, hchk, expectedCheckErrors]

/-- A live reference is below the fresh id. -/
theorem heapLookup_lt_fresh (h : List (Nat × Series)) (i : Nat) (s : Series)
    (hl : heapLookup h i = some s) : i < heapFresh h := by
  induction h with
  | nil => cases hl
  | cons p rest ih =>
    obtain ⟨j, t⟩ := p
    unfold heapLookup at hl
    unfold heapFresh at ih ⊢
    simp only [List.map_cons, List.foldr_cons]
    by_cases hpi : j = i
    · subst hpi
      omega
    · rw [if_neg hpi] at hl
      have := ih hl
      omega

/-- Allocating on top of a store only grows the fresh id. -/
theorem heapFresh_cons_ge (p : Nat × Series) (h : List (Nat × Series)) :
    heapFresh h ≤ heapFresh (p :: h) := by
  unfold heapFresh
  simp only [List.map_cons, List.foldr_cons]
  exact Nat.add_le_add_right (Nat.le_max_right _ _) 1

/-- Allocating a new object leaves a lookup of an old reference
unchanged. -/
theorem heapLookup_cons_ne (h : List (Nat × Series)) (i j : Nat) (t : Series)
    (hij : j ≠ i) : heapLookup ((j, t) :: h) i = heapLookup h i := by
  show (if j = i then some t else heapLookup h i) = heapLookup h i
  rw [if_neg hij]

/-- C8: a validate call with `inplace=false` never mutates the caller's
object: the entry behind the caller's reference is unchanged afterwards
(also when coercion failed partway — failure allocates and writes
nothing), and the returned reference is never an alias of the input, so
no later operation through the result can reach the caller's object.
Only when `inplace=true` was requested may the input itself be modified:
then, whenever coercion does not produce a fresh object, the returned
reference is the caller's own object. -/
theorem validate_inplace_false_never_mutates_input
    (schema : Schema) (h : List (Nat × Series)) (objId : Nat) (s : Series)
    (head tail sample random_state : Option Nat) (lazy : Bool)
    (r : Except ValidateFailure Nat) (h2 : List (Nat × Series))
    (hl : heapLookup h objId = some s)
    (hrun : validateOnHeap schema h objId head tail sample random_state lazy
        false = some (r, h2)) :
    heapLookup h2 objId = some s
    ∧ (∀ rid, r = Except.ok rid → rid ≠ objId)
    ∧ (∀ (r2 : Except ValidateFailure Nat) (h3 : List (Nat × Series)),
        validateOnHeap schema h objId head tail sample random_state lazy true
          = some (r2, h3) →
        coerceAllocated schema s = false →
        ∀ rid, r2 = Except.ok rid → rid = objId) := by
  have hfr : objId < heapFresh h := heapLookup_lt_fresh h objId s hl
  have hfr2 : objId < heapFresh ((heapFresh h, s) :: h) :=
    Nat.lt_of_lt_of_le hfr (heapFresh_cons_ge _ _)
  unfold validateOnHeap at hrun
  rw [hl] at hrun
  simp only [if_neg (show ¬(false = true) by decide)] at hrun
  refine ⟨?_, ?_, ?_⟩
  · cases hv : ArraySchemaBackend.validate schema s head tail sample
        random_state lazy false with
    | ok out =>
      rw [hv] at hrun
      dsimp only at hrun
      cases hca : coerceAllocated schema s with
      | false =>
        rw [if_neg (by rw [hca]; decide)] at hrun
        rw [Option.some.injEq, Prod.mk.injEq] at hrun
        obtain ⟨hr, hh⟩ := hrun
        subst hh
        rw [heapLookup_cons_ne _ _ _ _ (by omega)]
        exact hl
      | true =>
        rw [if_pos hca] at hrun
        rw [Option.some.injEq, Prod.mk.injEq] at hrun
        obtain ⟨hr, hh⟩ := hrun
        subst hh
        rw [heapLookup_cons_ne _ _ _ _ (by omega),
          heapLookup_cons_ne _ _ _ _ (by omega)]
        exact hl
    | error e =>
      rw [hv] at hrun
      dsimp only at hrun
      rw [Option.some.injEq, Prod.mk.injEq] at hrun
      obtain ⟨hr, hh⟩ := hrun
      subst hh
      rw [heapLookup_cons_ne _ _ _ _ (by omega)]
      exact hl
  · intro rid hre
    cases hv : ArraySchemaBackend.validate schema s head tail sample
        random_state lazy false with
    | ok out =>
      rw [hv] at hrun
      dsimp only at hrun
      cases hca : coerceAllocated schema s with
      | false =>
        rw [if_neg (by rw [hca]; decide)] at hrun
        rw [Option.some.injEq, Prod.mk.injEq] at hrun
        obtain ⟨hr, hh⟩ := hrun
        rw [← hr] at hre
        injection hre with hrid
        omega
      | true =>
        rw [if_pos hca] at hrun
        rw [Option.some.injEq, Prod.mk.injEq] at hrun
        obtain ⟨hr, hh⟩ := hrun
        rw [← hr] at hre
        injection hre with hrid
        omega
    | error e =>
      rw [hv] at hrun
      dsimp only at hrun
      rw [Option.some.injEq, Prod.mk.injEq] at hrun
      obtain ⟨hr, hh⟩ := hrun
      rw [← hr] at hre
      cases hre
  · intro r2 h3 hrun2 hca rid hre
    unfold validateOnHeap at hrun2
    rw [hl] at hrun2
    simp only [if_pos (show (true = true) from rfl)] at hrun2
    cases hv : ArraySchemaBackend.validate schema s head tail sample
        random_state lazy true with
    | ok out =>
      rw [hv] at hrun2
      dsimp only at hrun2
      rw [if_neg (by rw [hca]; decide)] at hrun2
      rw [Option.some.injEq, Prod.mk.injEq] at hrun2
      obtain ⟨hr2, hh2⟩ := hrun2
      rw [← hr2] at hre
      injection hre with hrid
      exact hrid.symm
    | error e =>
      rw [hv] at hrun2
      dsimp only at hrun2
      rw [Option.some.injEq, Prod.mk.injEq] at hrun2
      obtain ⟨hr2, hh2⟩ := hrun2
      rw [← hr2] at hre
      cases hre

/-- A one-object store holding `sAssoc` at reference 0. -/
def hExample : List (Nat × Series) := [(0, sAssoc)]

/-- The fresh object a successful coercion of `sAssoc` by `coerceSchema`
produces (`Dtype.try_coerce`: a new object, the accessor association not
carried over). -/
def sAssocCoerced : Series :=
  { name := some "col", dtypeName := "int64",
    toList := [(0, Val.int 1), (1, Val.int 2)],
    hasPandera := true, schemaAssoc := none }

/-- Witness for C8, applying the theorem at two concrete calls on the
one-object store: without coercion the result is the copy at reference 1;
with a successfully coercing schema the result is the fresh coerced object
at reference 2 — in both cases reference 0 is untouched and not
aliased. -/
theorem validate_inplace_false_never_mutates_input_witness :
    (heapLookup hExample 0 = some sAssoc
     ∧ validateOnHeap schemaND hExample 0 none none none none false false
         = some (Except.ok 1, [(1, sAssoc), (0, sAssoc)])
     ∧ (heapLookup [(1, sAssoc), (0, sAssoc)] 0 = some sAssoc
        ∧ (∀ rid, (Except.ok 1 : Except ValidateFailure Nat) = Except.ok rid →
             rid ≠ 0)
        ∧ (∀ (r2 : Except ValidateFailure Nat) (h3 : List (Nat × Series)),
            validateOnHeap schemaND hExample 0 none none none none false true
              = some (r2, h3) →
            coerceAllocated schemaND sAssoc = false →
            ∀ rid, r2 = Except.ok rid → rid = 0)))
    ∧ (validateOnHeap coerceSchema hExample 0 none none none none false false
         = some (Except.ok 2, [(2, sAssocCoerced), (1, sAssoc), (0, sAssoc)])
       ∧ (heapLookup [(2, sAssocCoerced), (1, sAssoc), (0, sAssoc)] 0
            = some sAssoc
          ∧ (∀ rid, (Except.ok 2 : Except ValidateFailure Nat) = Except.ok rid →
               rid ≠ 0)
          ∧ (∀ (r2 : Except ValidateFailure Nat) (h3 : List (Nat × Series)),
              validateOnHeap coerceSchema hExample 0 none none none none
                  false true = some (r2, h3) →
              coerceAllocated coerceSchema sAssoc = false →
              ∀ rid, r2 = Except.ok rid → rid = 0))) :=
  ⟨⟨rfl, rfl,
    validate_inplace_false_never_mutates_input schemaND hExample 0 sAssoc
      none none none none false (Except.ok 1) [(1, sAssoc), (0, sAssoc)]
      rfl rfl⟩,
   rfl,
    validate_inplace_false_never_mutates_input coerceSchema hExample 0 sAssoc
      none none none none false (Except.ok 2)
      [(2, sAssocCoerced), (1, sAssoc), (0, sAssoc)] rfl rfl⟩
